import Mathlib

/-!
Shallow embedding of the lekiwi-heartbeat telemetry agent
(`factory-install/agent/src/main.rs`) and proofs about its
specification.

Modelling conventions:
* Timestamps (`chrono::DateTime<Utc>`) are opaque values carried as their
  textual (RFC3339) form, so `Time := String`; each state-mutating
  operation receives the instant at which it runs (`Utc::now()`) as an
  explicit parameter.
* Machine integers are `Nat`/`Int`; the one arithmetic operation the
  program performs on one (`boot_count += 1` on a `u32`) is modelled with
  the wrap-around `% 2^32` of release-mode Rust.
* Floating-point readings (`f32`/`f64`) are carried as rationals `ℚ`;
  the program never computes with them in the code under study, it only
  stores and serializes them.
* OS probes (file reads, spawned commands) are modelled by explicit
  environment records: a probe that can fail is an `Option` holding the
  successful reading.
-/

/-- Timestamps are carried opaquely in their textual form. -/
abbrev Time := String

/-- `SERVO_COUNT_LEKIWI` from main.rs line 18. -/
def SERVO_COUNT_LEKIWI : Nat := 9

/-- Wrap-around modulus of the `u32` field `boot_count`. -/
def U32_MOD : Nat := 4294967296

/-- `enum RobotType` (main.rs lines 46-51). -/
inductive RobotType where
  | Lekiwi
  | XLE
  | Unknown
deriving DecidableEq

/-- `struct SystemInfo` (main.rs lines 53-66). -/
structure SystemInfo where
  robot_id : String
  robot_type : RobotType
  hostname : String
  kernel_version : String
  cpu_model : String
  cpu_cores : Nat
  total_memory_mb : Nat
  total_disk_gb : Nat
  mac_addresses : List String
  pi_version : String
  agent_version : String
deriving DecidableEq

/-- `struct DynamicInfo` (main.rs lines 68-86). -/
structure DynamicInfo where
  timestamp : Time
  uptime_seconds : Nat
  cpu_usage_percent : ℚ
  memory_used_mb : Nat
  memory_free_mb : Nat
  disk_used_gb : ℚ
  disk_free_gb : ℚ
  temperature_celsius : Option ℚ
  network_rx_bytes : Nat
  network_tx_bytes : Nat
  video_active : Bool
  teleop_active : Bool
  servo_positions : Option (List Int)
  realsense_connected : Option Bool
  process_count : Nat
  boot_id : String
deriving DecidableEq

/-- `struct RobotState` (main.rs lines 88-95). -/
structure RobotState where
  system_info : SystemInfo
  dynamic_info : DynamicInfo
  first_seen : Time
  last_boot : Time
  boot_count : Nat
deriving DecidableEq

/-- The reboot-detection update shared by `load_or_create_state`
(main.rs lines 296-300) and the monitoring loop (main.rs lines 349-354):
if the stored boot identifier differs from the fresh one, bump
`boot_count` (u32 arithmetic) and set `last_boot` to now. -/
def bumpBoot (state : RobotState) (newDynamic : DynamicInfo) (now : Time) : RobotState :=
  if state.dynamic_info.boot_id ≠ newDynamic.boot_id then
    { state with last_boot := now, boot_count := (state.boot_count + 1) % U32_MOD }
  else
    state

/-- The per-tick merge performed by `monitoring_loop`
(main.rs lines 346-356): reboot detection followed by wholesale
replacement of the dynamic snapshot. -/
def mergeTick (state : RobotState) (newDynamic : DynamicInfo) (now : Time) : RobotState :=
  { bumpBoot state newDynamic now with dynamic_info := newDynamic }

/-- `load_or_create_state` (main.rs lines 290-315).  `durable` is the
result of reading and deserializing the state file: `some s` when both
steps succeed, `none` on absence or parse failure.  `si`/`di` are the
freshly collected profile and snapshot. -/
def load_or_create_state (durable : Option RobotState) (si : SystemInfo)
    (di : DynamicInfo) (now : Time) : RobotState :=
  match durable with
  | some state =>
    let state' := bumpBoot state di now
    { state' with system_info := si, dynamic_info := di }
  | none =>
    { system_info := si
      dynamic_info := di
      first_seen := now
      last_boot := now
      boot_count := 1 }

/-- Sample profile used by concrete witnesses. -/
def sampleSystemInfo : SystemInfo :=
  { robot_id := "robot-1"
    robot_type := RobotType.Lekiwi
    hostname := "host"
    kernel_version := "6.1"
    cpu_model := "cortex"
    cpu_cores := 4
    total_memory_mb := 4096
    total_disk_gb := 32
    mac_addresses := ["aa:bb:cc:dd:ee:ff"]
    pi_version := "Raspberry Pi 5"
    agent_version := "1.0.0" }

/-- Sample dynamic snapshot with boot identifier `b`, used by witnesses. -/
def sampleDynamic (b : String) : DynamicInfo :=
  { timestamp := "2026-01-01T00:00:00Z"
    uptime_seconds := 100
    cpu_usage_percent := 5/2
    memory_used_mb := 1000
    memory_free_mb := 3096
    disk_used_gb := 10
    disk_free_gb := 22
    temperature_celsius := some 45
    network_rx_bytes := 123
    network_tx_bytes := 456
    video_active := false
    teleop_active := false
    servo_positions := some (List.replicate SERVO_COUNT_LEKIWI 0)
    realsense_connected := none
    process_count := 50
    boot_id := b }

/-- Sample durable state with boot identifier `b` and boot count `n`. -/
def sampleState (b : String) (n : Nat) : RobotState :=
  { system_info := sampleSystemInfo
    dynamic_info := sampleDynamic b
    first_seen := "2025-12-01T00:00:00Z"
    last_boot := "2025-12-20T00:00:00Z"
    boot_count := n }

/-- C1 counterexample: at the `u32` maximum the merge wraps `boot_count`
to 0 instead of increasing it by exactly 1. -/
theorem mergeTick_bootCount_wrap_counterexample :
    (sampleState "boot-a" 4294967295).dynamic_info.boot_id ≠ (sampleDynamic "boot-b").boot_id ∧
    (mergeTick (sampleState "boot-a" 4294967295) (sampleDynamic "boot-b") "2026-01-01T00:00:05Z").boot_count = 0 ∧
    ¬ (mergeTick (sampleState "boot-a" 4294967295) (sampleDynamic "boot-b") "2026-01-01T00:00:05Z").boot_count =
        (sampleState "boot-a" 4294967295).boot_count + 1 := by
  refine ⟨by decide, ?_, ?_⟩ <;>
    simp [mergeTick, bumpBoot, sampleState, sampleDynamic, U32_MOD]

/-- C1 (amended): the tick merge replaces the dynamic snapshot wholesale;
with an unchanged boot identifier `boot_count` and `last_boot` are
untouched; with a changed one `last_boot` becomes the merge time and
`boot_count` is incremented modulo 2^32 — an increase by exactly 1
whenever the counter is below the u32 maximum. -/
theorem mergeTick_boot_semantics (st : RobotState) (nd : DynamicInfo) (now : Time) :
    (mergeTick st nd now).dynamic_info = nd ∧
    (st.dynamic_info.boot_id = nd.boot_id →
      (mergeTick st nd now).boot_count = st.boot_count ∧
      (mergeTick st nd now).last_boot = st.last_boot) ∧
    (st.dynamic_info.boot_id ≠ nd.boot_id →
      (mergeTick st nd now).boot_count = (st.boot_count + 1) % U32_MOD ∧
      (mergeTick st nd now).last_boot = now ∧
      (st.boot_count + 1 < U32_MOD →
        (mergeTick st nd now).boot_count = st.boot_count + 1)) := by
  refine ⟨rfl, fun h => ?_, fun h => ?_⟩
  · simp [mergeTick, bumpBoot, h]
  · refine ⟨?_, ?_, fun hlt => ?_⟩ <;> simp [mergeTick, bumpBoot, h, Nat.mod_eq_of_lt, *]

/-- C1 witness: a concrete merge with a changed boot identifier. -/
theorem mergeTick_boot_semantics_witness :
    (mergeTick (sampleState "boot-a" 3) (sampleDynamic "boot-b") "2026-01-01T00:00:05Z").dynamic_info
      = sampleDynamic "boot-b" ∧
    (mergeTick (sampleState "boot-a" 3) (sampleDynamic "boot-b") "2026-01-01T00:00:05Z").boot_count = 4 ∧
    (mergeTick (sampleState "boot-a" 3) (sampleDynamic "boot-b") "2026-01-01T00:00:05Z").last_boot
      = "2026-01-01T00:00:05Z" := by
  have h := mergeTick_boot_semantics (sampleState "boot-a" 3) (sampleDynamic "boot-b")
    "2026-01-01T00:00:05Z"
  have hne : (sampleState "boot-a" 3).dynamic_info.boot_id ≠ (sampleDynamic "boot-b").boot_id := by
    decide
  obtain ⟨hdyn, -, hbump⟩ := h
  obtain ⟨hbc, hlb, hexact⟩ := hbump hne
  exact ⟨hdyn, hexact (by decide), hlb⟩

/-- C2: `first_seen` is never written after creation — the continuity
path of `load_or_create_state` preserves the stored value, and the
per-tick merge never touches it. -/
theorem first_seen_preserved (st : RobotState) (si : SystemInfo) (di : DynamicInfo)
    (nd : DynamicInfo) (now t : Time) :
    (load_or_create_state (some st) si di now).first_seen = st.first_seen ∧
    (mergeTick st nd t).first_seen = st.first_seen := by
  constructor
  · simp only [load_or_create_state, bumpBoot]
    split <;> rfl
  · simp only [mergeTick, bumpBoot]
    split <;> rfl

/-- C3: on absence or parse failure of the durable record, the
cold-start path builds a fresh state with `boot_count = 1` and
`first_seen = last_boot = now`. -/
theorem load_or_create_cold_start (si : SystemInfo) (di : DynamicInfo) (now : Time) :
    (load_or_create_state none si di now).boot_count = 1 ∧
    (load_or_create_state none si di now).first_seen = now ∧
    (load_or_create_state none si di now).last_boot = now ∧
    (load_or_create_state none si di now).first_seen
      = (load_or_create_state none si di now).last_boot := by
  exact ⟨rfl, rfl, rfl, rfl⟩

/-- Substring test on character lists: does `s` start with `pat`? -/
def charsStartWith : List Char → List Char → Bool
  | _, [] => true
  | [], _ :: _ => false
  | c :: cs, p :: ps => c == p && charsStartWith cs ps

/-- Substring test on character lists: does `pat` occur anywhere in `s`? -/
def charsContainSeq : List Char → List Char → Bool
  | [], pat => charsStartWith [] pat
  | c :: cs, pat => charsStartWith (c :: cs) pat || charsContainSeq cs pat

/-- Model of Rust `str::contains` with a substring pattern. -/
def containsSub (s pat : String) : Bool :=
  charsContainSeq s.data pat.data

/-- Probe outcomes consumed by `RobotType::detect` (main.rs lines
104-141).  An `Option` field is `none` when the underlying probe cannot
execute (missing file or directory, command spawn failure). -/
structure ProbeEnv where
  /-- `Path::new("/dev/realsense2").exists()` -/
  realsense_dev : Bool
  /-- `Path::new("/sys/class/video4linux").exists()` -/
  video4linux_dir : Bool
  /-- `fs::read_dir("/sys/class/video4linux")`: the successfully read
  `name` files of the enumerated entries, or `none` when the read fails
  (unreadable entries and name files are skipped by the source's
  `flatten()` / `if let Ok`). -/
  video4linux_names : Option (List String)
  /-- `Path::new("/dev/i2c-1").exists()` -/
  i2c1 : Bool
  /-- stdout of `i2cdetect -y 1 0x40 0x40`, or `none` on spawn failure -/
  i2cdetect_out : Option String
  /-- stdout of `lsusb`, or `none` on spawn failure -/
  lsusb_out : Option String

/-- Fall-through target after rules 1 and 2: the USB vendor-string check
(main.rs lines 131-138) and the final `Unknown` (line 140). -/
def detectRule3 (env : ProbeEnv) : RobotType :=
  match env.lsusb_out with
  | some out =>
    if containsSub out "STMicroelectronics" || containsSub out "FTDI" then
      RobotType.XLE
    else
      RobotType.Unknown
  | none => RobotType.Unknown

/-- Fall-through target after rule 1: the servo-controller check
(main.rs lines 119-129). -/
def detectRule2 (env : ProbeEnv) : RobotType :=
  if env.i2c1 then
    match env.i2cdetect_out with
    | some out =>
      if containsSub out "40" then RobotType.Lekiwi else detectRule3 env
    | none => detectRule3 env
  else
    detectRule3 env

/-- `RobotType::detect` (main.rs lines 104-141).  Rule 1 (lines
106-117): when `/dev/realsense2` or `/sys/class/video4linux` exists, the
video4linux entries are enumerated and any `name` containing
"RealSense" yields `XLE`; otherwise control falls through. -/
def RobotType.detect (env : ProbeEnv) : RobotType :=
  if env.realsense_dev || env.video4linux_dir then
    match env.video4linux_names with
    | some names =>
      if names.any (fun n => containsSub n "RealSense") then
        RobotType.XLE
      else
        detectRule2 env
    | none => detectRule2 env
  else
    detectRule2 env

/-- Depth-camera evidence as the code actually uses it: the gate holds
and some enumerated video-capture name matches the signature. -/
def depthEvidence (env : ProbeEnv) : Bool :=
  (env.realsense_dev || env.video4linux_dir) &&
    (match env.video4linux_names with
     | some names => names.any (fun n => containsSub n "RealSense")
     | none => false)

/-- Actuator-bus evidence: I²C bus present and the probe output shows
the controller address. -/
def actuatorEvidence (env : ProbeEnv) : Bool :=
  env.i2c1 &&
    (match env.i2cdetect_out with
     | some out => containsSub out "40"
     | none => false)

/-- USB vendor-string evidence for the arm controllers. -/
def usbEvidence (env : ProbeEnv) : Bool :=
  match env.lsusb_out with
  | some out => containsSub out "STMicroelectronics" || containsSub out "FTDI"
  | none => false

/-- Characterization of the classifier as a first-match-wins cascade
over the three evidence predicates. -/
lemma detect_eq_cascade (env : ProbeEnv) :
    RobotType.detect env =
      if depthEvidence env then RobotType.XLE
      else if actuatorEvidence env then RobotType.Lekiwi
      else if usbEvidence env then RobotType.XLE
      else RobotType.Unknown := by
  rcases env with ⟨rdev, vdir, vnames, i2c, icout, usbout⟩
  simp only [RobotType.detect, detectRule2, detectRule3, depthEvidence, actuatorEvidence,
    usbEvidence]
  cases vnames <;> cases icout <;> cases usbout <;>
    cases rdev <;> cases vdir <;> cases i2c <;> simp

/-- C4 counterexample: the dedicated depth-camera device node exists
(and actuator evidence is simultaneously present), yet the classifier
returns `Lekiwi`, not `XLE` — the node's existence only gates the
enumeration attempt, which here fails. -/
def envC4 : ProbeEnv :=
  { realsense_dev := true
    video4linux_dir := false
    video4linux_names := none
    i2c1 := true
    i2cdetect_out := some "70: 40 --"
    lsusb_out := none }

/-- C4 counterexample theorem: depth-camera device-node evidence alone
does not force `XLE`. -/
theorem detect_device_node_counterexample :
    envC4.realsense_dev = true ∧
    RobotType.detect envC4 = RobotType.Lekiwi ∧
    ¬ RobotType.detect envC4 = RobotType.XLE := by
  refine ⟨rfl, ?_, ?_⟩ <;> decide

/-- C4 (amended): rules are evaluated in a fixed precedence with first
match winning (the cascade characterization), and rule 1 triggers
exactly when the gate holds and an enumerated video-capture name
matches the depth-camera signature — in which case `XLE` wins even over
simultaneous actuator-bus evidence; the device node alone only gates
the enumeration attempt. -/
theorem detect_precedence (env : ProbeEnv) (names : List String)
    (hgate : (env.realsense_dev || env.video4linux_dir) = true)
    (hread : env.video4linux_names = some names)
    (hmatch : names.any (fun n => containsSub n "RealSense") = true) :
    RobotType.detect env = RobotType.XLE ∧
    RobotType.detect env =
      (if depthEvidence env then RobotType.XLE
       else if actuatorEvidence env then RobotType.Lekiwi
       else if usbEvidence env then RobotType.XLE
       else RobotType.Unknown) := by
  have hd : depthEvidence env = true := by
    simp [depthEvidence, hgate, hread, hmatch]
  exact ⟨by rw [detect_eq_cascade, hd]; rfl, detect_eq_cascade env⟩

/-- C4 witness environment: depth-camera and actuator evidence both
present. -/
def envC4w : ProbeEnv :=
  { realsense_dev := true
    video4linux_dir := true
    video4linux_names := some ["Intel(R) RealSense(TM) Depth Camera"]
    i2c1 := true
    i2cdetect_out := some "40: 40 --"
    lsusb_out := some "STMicroelectronics" }

/-- C4 witness: with both kinds of evidence present the classifier
resolves to `XLE`. -/
theorem detect_precedence_witness :
    RobotType.detect envC4w = RobotType.XLE := by
  exact (detect_precedence envC4w ["Intel(R) RealSense(TM) Depth Camera"]
    (by decide) (by decide) (by decide)).1

/-- C8: the classifier is total — every probe environment yields one of
the three variants — and the complete absence of evidence (in
particular, every probe failing to execute) yields `Unknown`. -/
theorem detect_total_and_default (env : ProbeEnv) :
    (RobotType.detect env = RobotType.Lekiwi ∨
     RobotType.detect env = RobotType.XLE ∨
     RobotType.detect env = RobotType.Unknown) ∧
    (depthEvidence env = false → actuatorEvidence env = false →
      usbEvidence env = false → RobotType.detect env = RobotType.Unknown) := by
  constructor
  · rw [detect_eq_cascade]
    split
    · exact Or.inr (Or.inl rfl)
    · split
      · exact Or.inl rfl
      · split
        · exact Or.inr (Or.inl rfl)
        · exact Or.inr (Or.inr rfl)
  · intro h1 h2 h3
    rw [detect_eq_cascade, h1, h2, h3]
    rfl

/-- C8 witness environment: no probe can execute at all. -/
def envC8 : ProbeEnv :=
  { realsense_dev := false
    video4linux_dir := false
    video4linux_names := none
    i2c1 := false
    i2cdetect_out := none
    lsusb_out := none }

/-- C8 witness: with every probe failing the classifier returns
`Unknown` rather than an error. -/
theorem detect_total_and_default_witness :
    RobotType.detect envC8 = RobotType.Unknown := by
  exact (detect_total_and_default envC8).2 (by decide) (by decide) (by decide)

/-- Raw readings consumed by one call of `collect_dynamic_info`
(main.rs lines 242-288).  Per-device figures are carried as lists; the
already-parsed results of the out-of-scope probes (`get_temperature`,
`check_video_active`, `check_teleop_active`) are carried directly. -/
structure DynEnv where
  /-- `Utc::now()` at collection time -/
  now : Time
  /-- `sys.uptime()` -/
  uptime : Nat
  /-- per-cpu `cpu.cpu_usage()` readings -/
  cpu_usages : List ℚ
  /-- `sys.used_memory()` in bytes -/
  used_memory : Nat
  /-- `sys.available_memory()` in bytes -/
  available_memory : Nat
  /-- per-disk `(total_space, available_space)` in bytes -/
  disks : List (Nat × Nat)
  /-- per-interface `(name, total_received, total_transmitted)` -/
  networks : List (String × Nat × Nat)
  /-- result of `get_temperature()` (main.rs lines 162-167) -/
  temperature : Option ℚ
  /-- result of `check_video_active()` (main.rs lines 169-176) -/
  video_active : Bool
  /-- result of `check_teleop_active()` (main.rs lines 178-185) -/
  teleop_active : Bool
  /-- `Path::new("/dev/realsense2").exists()` at collection time -/
  realsense_dev : Bool
  /-- `sys.processes().len()` -/
  process_count : Nat
  /-- `fs::read_to_string("/proc/sys/kernel/random/boot_id")`, `none` on
  read failure -/
  boot_id_read : Option String
  /-- the `Uuid::new_v4()` value drawn if the read fails -/
  fresh_uuid : String

/-- Characters-level model of Rust `str::trim`: strip leading and
trailing whitespace. -/
def trimChars (cs : List Char) : List Char :=
  ((cs.dropWhile Char.isWhitespace).reverse.dropWhile Char.isWhitespace).reverse

/-- Model of Rust `str::trim` (kernel-reducible, unlike `String.trim`). -/
def strTrim (s : String) : String :=
  String.mk (trimChars s.data)

/-- `get_boot_id` (main.rs lines 155-160): the machine boot identifier,
falling back to a freshly generated random UUID when the kernel file is
unreadable; either way the result is trimmed. -/
def get_boot_id (read : Option String) (fresh_uuid : String) : String :=
  strTrim (read.getD fresh_uuid)

/-- `get_servo_positions` (main.rs lines 187-196): actuator positions
are produced only for the `Lekiwi` variant. -/
def get_servo_positions (robot_type : RobotType) : Option (List Int) :=
  match robot_type with
  | RobotType.Lekiwi => some (List.replicate SERVO_COUNT_LEKIWI 0)
  | _ => none

/-- `collect_dynamic_info` (main.rs lines 242-288). -/
def collect_dynamic_info (robot_type : RobotType) (env : DynEnv) : DynamicInfo :=
  let cpu_usage_percent := env.cpu_usages.sum / (env.cpu_usages.length : ℚ)
  let disk_figures := env.disks.foldl
    (fun acc d =>
      (acc.1 + ((d.1 - d.2 : Nat) : ℚ) / 1024 / 1024 / 1024,
       acc.2 + ((d.2 : Nat) : ℚ) / 1024 / 1024 / 1024))
    ((0 : ℚ), (0 : ℚ))
  let net_totals := (env.networks.filter (fun n => !n.1.startsWith "lo")).foldl
    (fun acc n => (acc.1 + n.2.1, acc.2 + n.2.2)) ((0 : Nat), (0 : Nat))
  { timestamp := env.now
    uptime_seconds := env.uptime
    cpu_usage_percent := cpu_usage_percent
    memory_used_mb := env.used_memory / 1024 / 1024
    memory_free_mb := env.available_memory / 1024 / 1024
    disk_used_gb := disk_figures.1
    disk_free_gb := disk_figures.2
    temperature_celsius := env.temperature
    network_rx_bytes := net_totals.1
    network_tx_bytes := net_totals.2
    video_active := env.video_active
    teleop_active := env.teleop_active
    servo_positions := get_servo_positions robot_type
    realsense_connected :=
      match robot_type with
      | RobotType.XLE => some env.realsense_dev
      | _ => none
    process_count := env.process_count
    boot_id := get_boot_id env.boot_id_read env.fresh_uuid }

/-- C5: the variant-specific optional fields are populated exactly
according to the robot type — servo positions iff `Lekiwi`, depth-camera
connectivity iff `XLE`, and both absent for `Unknown`. -/
theorem collect_dynamic_variant_fields (rt : RobotType) (env : DynEnv) :
    ((collect_dynamic_info rt env).servo_positions.isSome = true ↔ rt = RobotType.Lekiwi) ∧
    ((collect_dynamic_info rt env).realsense_connected.isSome = true ↔ rt = RobotType.XLE) ∧
    (collect_dynamic_info RobotType.Unknown env).servo_positions = none ∧
    (collect_dynamic_info RobotType.Unknown env).realsense_connected = none := by
  cases rt <;> simp [collect_dynamic_info, get_servo_positions]

/-- Sample collection environment whose boot-id source is unreadable and
whose fallback UUID draw is `u`. -/
def sampleDynEnv (u : String) : DynEnv :=
  { now := "2026-01-01T00:00:10Z"
    uptime := 200
    cpu_usages := [1, 2]
    used_memory := 1048576
    available_memory := 2097152
    disks := [(2000000, 1000000)]
    networks := [("eth0", 10, 20), ("lo", 5, 5)]
    temperature := some 40
    video_active := false
    teleop_active := false
    realsense_dev := false
    process_count := 42
    boot_id_read := none
    fresh_uuid := u }

/-- C10: when the boot-id source is unreadable, `get_boot_id` returns
the freshly drawn UUID (trimmed) of that very call, so two consecutive
snapshots with distinct draws carry distinct boot identifiers, and the
merge takes the reboot branch — bumping `boot_count` and `last_boot` —
although no reboot occurred. -/
theorem boot_id_fallback_spurious_reboot (rt : RobotType) (e1 e2 : DynEnv)
    (st : RobotState) (now : Time)
    (h1 : e1.boot_id_read = none) (h2 : e2.boot_id_read = none)
    (hne : strTrim e1.fresh_uuid ≠ strTrim e2.fresh_uuid)
    (hst : st.dynamic_info.boot_id = (collect_dynamic_info rt e1).boot_id) :
    (collect_dynamic_info rt e1).boot_id = strTrim e1.fresh_uuid ∧
    st.dynamic_info.boot_id ≠ (collect_dynamic_info rt e2).boot_id ∧
    (mergeTick st (collect_dynamic_info rt e2) now).boot_count
      = (st.boot_count + 1) % U32_MOD ∧
    (mergeTick st (collect_dynamic_info rt e2) now).last_boot = now := by
  have hb1 : (collect_dynamic_info rt e1).boot_id = strTrim e1.fresh_uuid := by
    simp [collect_dynamic_info, get_boot_id, h1]
  have hb2 : (collect_dynamic_info rt e2).boot_id = strTrim e2.fresh_uuid := by
    simp [collect_dynamic_info, get_boot_id, h2]
  have hne' : st.dynamic_info.boot_id ≠ (collect_dynamic_info rt e2).boot_id := by
    rw [hst, hb1, hb2]; exact hne
  refine ⟨hb1, hne', ?_, ?_⟩ <;> simp [mergeTick, bumpBoot, hne']

/-- C10 witness: two concrete snapshots collected while the source is
unreadable, with distinct fallback draws. -/
theorem boot_id_fallback_spurious_reboot_witness :
    (collect_dynamic_info RobotType.Unknown (sampleDynEnv "uuid-1")).boot_id
      = strTrim "uuid-1" ∧
    (sampleState "uuid-1" 7).dynamic_info.boot_id
      ≠ (collect_dynamic_info RobotType.Unknown (sampleDynEnv "uuid-2")).boot_id ∧
    (mergeTick (sampleState "uuid-1" 7)
        (collect_dynamic_info RobotType.Unknown (sampleDynEnv "uuid-2"))
        "2026-01-01T00:00:11Z").boot_count
      = ((sampleState "uuid-1" 7).boot_count + 1) % U32_MOD ∧
    (mergeTick (sampleState "uuid-1" 7)
        (collect_dynamic_info RobotType.Unknown (sampleDynEnv "uuid-2"))
        "2026-01-01T00:00:11Z").last_boot = "2026-01-01T00:00:11Z" := by
  exact boot_id_fallback_spurious_reboot RobotType.Unknown (sampleDynEnv "uuid-1")
    (sampleDynEnv "uuid-2") (sampleState "uuid-1" 7) "2026-01-01T00:00:11Z"
    rfl rfl (by decide) (by decide)

/-- The two externally visible side effects a tick attempts
(main.rs lines 358-366), each carrying the state it serializes. -/
inductive Effect where
  | persist (s : RobotState)
  | report (s : RobotState)
deriving DecidableEq

/-- One steady-state pass of `monitoring_loop` (main.rs lines 342-368):
merge the fresh snapshot, then attempt persistence and the heartbeat
report, whose outcomes (`persistOk`, `reportOk`) only determine whether
a warning is logged. -/
structure TickResult where
  state : RobotState
  effects : List Effect
  persistWarned : Bool
  reportWarned : Bool
deriving DecidableEq

/-- The tick body: `collect` has already produced `nd`; the merge runs,
then one persistence attempt and one report attempt on the merged
state. -/
def monitoring_tick (st : RobotState) (nd : DynamicInfo) (now : Time)
    (persistOk reportOk : Bool) : TickResult :=
  let merged := mergeTick st nd now
  { state := merged
    effects := [Effect.persist merged, Effect.report merged]
    persistWarned := !persistOk
    reportWarned := !reportOk }

/-- C7: the merged in-memory state of a tick is independent of the
persistence and report outcomes; the tick attempts exactly one persist
followed by one report, both carrying the already-merged state, and a
failure only raises the corresponding warning flag. -/
theorem tick_state_independent_of_outcomes (st : RobotState) (nd : DynamicInfo)
    (now : Time) (p r p' r' : Bool) :
    (monitoring_tick st nd now p r).state = mergeTick st nd now ∧
    (monitoring_tick st nd now p r).state = (monitoring_tick st nd now p' r').state ∧
    (monitoring_tick st nd now p r).effects =
      [Effect.persist (mergeTick st nd now), Effect.report (mergeTick st nd now)] ∧
    (monitoring_tick st nd now p r).persistWarned = !p ∧
    (monitoring_tick st nd now p r).reportWarned = !r := by
  exact ⟨rfl, rfl, rfl, rfl, rfl⟩

/-- The writer's lock-holding micro-states within one tick
(main.rs lines 346-368): the `Bool` is "write lock held".  The third
entry is the torn intermediate after the boot bump (lines 350-354) but
before the snapshot replacement (line 356); it is only ever paired with
a held lock. -/
def tickTrace (s : RobotState) (nd : DynamicInfo) (now : Time) : List (Bool × RobotState) :=
  [(true, s), (true, bumpBoot s nd now), (true, mergeTick s nd now),
   (false, mergeTick s nd now)]

/-- The whole monitoring loop as a trace of lock-flagged shared states,
one `tickTrace` per tick. -/
def runTicks (s : RobotState) : List (DynamicInfo × Time) → List (Bool × RobotState)
  | [] => [(false, s)]
  | (nd, t) :: rest => tickTrace s nd t ++ runTicks (mergeTick s nd t) rest

/-- The fully-merged state after a sequence of ticks. -/
def applyTicks (s : RobotState) (ticks : List (DynamicInfo × Time)) : RobotState :=
  ticks.foldl (fun st p => mergeTick st p.1 p.2) s

lemma applyTicks_cons (s : RobotState) (nd : DynamicInfo) (t : Time)
    (l : List (DynamicInfo × Time)) :
    applyTicks s ((nd, t) :: l) = applyTicks (mergeTick s nd t) l := rfl

/-- The dynamic snapshot of a fully-merged state is one of the input
snapshots, taken wholesale (or the initial one, if no tick ran). -/
lemma applyTicks_dynamic (l : List (DynamicInfo × Time)) (s : RobotState) :
    (applyTicks s l).dynamic_info = s.dynamic_info ∨
    (applyTicks s l).dynamic_info ∈ l.map Prod.fst := by
  induction l generalizing s with
  | nil => exact Or.inl rfl
  | cons p rest ih =>
    rcases p with ⟨nd, t⟩
    rw [applyTicks_cons]
    rcases ih (mergeTick s nd t) with h | h
    · right
      rw [h]
      simp [mergeTick]
    · right
      simp only [List.map_cons, List.mem_cons]
      exact Or.inr h

/-- Every lock-free point of the trace publishes a fully-merged state:
the fold of `mergeTick` over some prefix of the ticks. -/
lemma runTicks_published (ticks : List (DynamicInfo × Time)) (s0 st : RobotState)
    (hmem : (false, st) ∈ runTicks s0 ticks) :
    ∃ k, st = applyTicks s0 (ticks.take k) := by
  induction ticks generalizing s0 with
  | nil =>
    simp only [runTicks, List.mem_singleton, Prod.mk.injEq, true_and] at hmem
    exact ⟨0, hmem⟩
  | cons p rest ih =>
    rcases p with ⟨nd, t⟩
    rcases List.mem_append.1 hmem with h | h
    · have hst : st = mergeTick s0 nd t := by
        simp [tickTrace] at h
        exact h
      exact ⟨1, by simpa [applyTicks] using hst⟩
    · obtain ⟨k, hk⟩ := ih (mergeTick s0 nd t) h
      exact ⟨k + 1, by simpa [List.take, applyTicks_cons] using hk⟩

/-- C9: a Status API read can only observe the shared state at a point
where the writer does not hold the lock, and every such state is the
fully-merged result of some prefix of ticks — never the torn
intermediate — so its dynamic snapshot (timestamp and boot identifier
together) is one input snapshot taken wholesale. -/
theorem status_reads_fully_merged (s0 : RobotState) (ticks : List (DynamicInfo × Time))
    (st : RobotState) (hmem : (false, st) ∈ runTicks s0 ticks) :
    (∃ k, st = applyTicks s0 (ticks.take k)) ∧
    (st.dynamic_info = s0.dynamic_info ∨ st.dynamic_info ∈ ticks.map Prod.fst) := by
  obtain ⟨k, hk⟩ := runTicks_published ticks s0 st hmem
  refine ⟨⟨k, hk⟩, ?_⟩
  rcases applyTicks_dynamic (ticks.take k) s0 with h | h
  · exact Or.inl (hk ▸ h)
  · refine Or.inr ?_
    rw [hk]
    exact List.map_subset Prod.fst (List.take_subset k ticks) h

/-- C9 witness: the state published after one concrete tick. -/
theorem status_reads_fully_merged_witness :
    (∃ k, mergeTick (sampleState "boot-a" 1) (sampleDynamic "boot-b") "2026-01-01T00:00:05Z"
        = applyTicks (sampleState "boot-a" 1)
            (([((sampleDynamic "boot-b"), "2026-01-01T00:00:05Z")]).take k)) ∧
    ((mergeTick (sampleState "boot-a" 1) (sampleDynamic "boot-b") "2026-01-01T00:00:05Z").dynamic_info
        = (sampleState "boot-a" 1).dynamic_info ∨
     (mergeTick (sampleState "boot-a" 1) (sampleDynamic "boot-b") "2026-01-01T00:00:05Z").dynamic_info
        ∈ ([((sampleDynamic "boot-b"), "2026-01-01T00:00:05Z")]).map Prod.fst) := by
  exact status_reads_fully_merged (sampleState "boot-a" 1)
    [((sampleDynamic "boot-b"), "2026-01-01T00:00:05Z")]
    (mergeTick (sampleState "boot-a" 1) (sampleDynamic "boot-b") "2026-01-01T00:00:05Z")
    (by simp [runTicks, tickTrace])

/-- The JSON value space of the wire encoding (serde_json), with
numbers carried as rationals. -/
inductive Json where
  | null
  | bool (b : Bool)
  | num (q : ℚ)
  | str (s : String)
  | arr (elems : List Json)
  | obj (fields : List (String × Json))

/-- Field lookup in a JSON object (first binding wins, extra fields are
ignored — as serde's derived deserializer does). -/
def getField : List (String × Json) → String → Option Json
  | [], _ => none
  | (k, v) :: rest, key => if k = key then some v else getField rest key

/-- Unsigned-integer fields (`u32`/`u64`/`usize`) encode as numbers. -/
def encNat (n : Nat) : Json := Json.num (n : ℚ)

/-- Signed-integer fields (`i32`) encode as numbers. -/
def encInt (i : Int) : Json := Json.num (i : ℚ)

/-- `Option` fields encode as `null` when absent — the derive does not
skip them. -/
def encOpt (enc : α → Json) : Option α → Json
  | none => Json.null
  | some a => enc a

def decNat : Json → Option Nat
  | Json.num q => if q.den = 1 ∧ 0 ≤ q.num then some q.num.toNat else none
  | _ => none

def decInt : Json → Option Int
  | Json.num q => if q.den = 1 then some q.num else none
  | _ => none

def decRat : Json → Option ℚ
  | Json.num q => some q
  | _ => none

def decStr : Json → Option String
  | Json.str s => some s
  | _ => none

def decBool : Json → Option Bool
  | Json.bool b => some b
  | _ => none

def decOpt (dec : Json → Option α) : Json → Option (Option α)
  | Json.null => some none
  | j => (dec j).map some

def decListAux (dec : Json → Option α) : List Json → Option (List α)
  | [] => some []
  | j :: js =>
    match dec j with
    | some a => (decListAux dec js).map (fun as => a :: as)
    | none => none

def decList (dec : Json → Option α) : Json → Option (List α)
  | Json.arr js => decListAux dec js
  | _ => none

@[simp] lemma decNat_encNat (n : Nat) : decNat (encNat n) = some n := by
  simp [decNat, encNat]

@[simp] lemma decInt_encInt (i : Int) : decInt (encInt i) = some i := by
  simp [decInt, encInt]

@[simp] lemma decStr_enc (s : String) : decStr (Json.str s) = some s := rfl

@[simp] lemma decRat_enc (q : ℚ) : decRat (Json.num q) = some q := rfl

@[simp] lemma decBool_enc (b : Bool) : decBool (Json.bool b) = some b := rfl

lemma decListAux_enc (dec : Json → Option α) (enc : α → Json)
    (h : ∀ a, dec (enc a) = some a) (xs : List α) :
    decListAux dec (xs.map enc) = some xs := by
  induction xs with
  | nil => rfl
  | cons x rest ih => simp [decListAux, h, ih]

@[simp] lemma decList_str (xs : List String) :
    decList decStr (Json.arr (xs.map Json.str)) = some xs := by
  simp [decList, decListAux_enc decStr Json.str (fun _ => rfl)]

@[simp] lemma decList_int (xs : List Int) :
    decList decInt (Json.arr (xs.map encInt)) = some xs := by
  simp [decList, decListAux_enc decInt encInt decInt_encInt]

/-- serde's externally tagged encoding of the fieldless `RobotType`
variants: just the variant name. -/
def RobotType.toJson : RobotType → Json
  | RobotType.Lekiwi => Json.str "Lekiwi"
  | RobotType.XLE => Json.str "XLE"
  | RobotType.Unknown => Json.str "Unknown"

def RobotType.fromJson : Json → Option RobotType
  | Json.str s =>
    if s = "Lekiwi" then some RobotType.Lekiwi
    else if s = "XLE" then some RobotType.XLE
    else if s = "Unknown" then some RobotType.Unknown
    else none
  | _ => none

@[simp] lemma robotType_json_roundtrip (rt : RobotType) :
    RobotType.fromJson (RobotType.toJson rt) = some rt := by
  cases rt <;> simp [RobotType.toJson, RobotType.fromJson]

/-- Derived serialization of `SystemInfo`: an object with the fields in
declaration order. -/
def SystemInfo.toJson (s : SystemInfo) : Json :=
  Json.obj
    [("robot_id", Json.str s.robot_id),
     ("robot_type", RobotType.toJson s.robot_type),
     ("hostname", Json.str s.hostname),
     ("kernel_version", Json.str s.kernel_version),
     ("cpu_model", Json.str s.cpu_model),
     ("cpu_cores", encNat s.cpu_cores),
     ("total_memory_mb", encNat s.total_memory_mb),
     ("total_disk_gb", encNat s.total_disk_gb),
     ("mac_addresses", Json.arr (s.mac_addresses.map Json.str)),
     ("pi_version", Json.str s.pi_version),
     ("agent_version", Json.str s.agent_version)]

def SystemInfo.fromJson : Json → Option SystemInfo
  | Json.obj fields => do
    let robot_id ← getField fields "robot_id" >>= decStr
    let robot_type ← getField fields "robot_type" >>= RobotType.fromJson
    let hostname ← getField fields "hostname" >>= decStr
    let kernel_version ← getField fields "kernel_version" >>= decStr
    let cpu_model ← getField fields "cpu_model" >>= decStr
    let cpu_cores ← getField fields "cpu_cores" >>= decNat
    let total_memory_mb ← getField fields "total_memory_mb" >>= decNat
    let total_disk_gb ← getField fields "total_disk_gb" >>= decNat
    let mac_addresses ← getField fields "mac_addresses" >>= decList decStr
    let pi_version ← getField fields "pi_version" >>= decStr
    let agent_version ← getField fields "agent_version" >>= decStr
    pure { robot_id := robot_id, robot_type := robot_type, hostname := hostname,
           kernel_version := kernel_version, cpu_model := cpu_model,
           cpu_cores := cpu_cores, total_memory_mb := total_memory_mb,
           total_disk_gb := total_disk_gb, mac_addresses := mac_addresses,
           pi_version := pi_version, agent_version := agent_version }
  | _ => none

@[simp] lemma systemInfo_json_roundtrip (s : SystemInfo) :
    SystemInfo.fromJson (SystemInfo.toJson s) = some s := by
  rcases s with ⟨a, b, c, d, e, f, g, h, i, j, k⟩
  simp [SystemInfo.toJson, SystemInfo.fromJson, getField, Option.bind]

/-- Derived serialization of `DynamicInfo`: an object with the fields in
declaration order; absent optional fields encode as `null`. -/
def DynamicInfo.toJson (d : DynamicInfo) : Json :=
  Json.obj
    [("timestamp", Json.str d.timestamp),
     ("uptime_seconds", encNat d.uptime_seconds),
     ("cpu_usage_percent", Json.num d.cpu_usage_percent),
     ("memory_used_mb", encNat d.memory_used_mb),
     ("memory_free_mb", encNat d.memory_free_mb),
     ("disk_used_gb", Json.num d.disk_used_gb),
     ("disk_free_gb", Json.num d.disk_free_gb),
     ("temperature_celsius", encOpt Json.num d.temperature_celsius),
     ("network_rx_bytes", encNat d.network_rx_bytes),
     ("network_tx_bytes", encNat d.network_tx_bytes),
     ("video_active", Json.bool d.video_active),
     ("teleop_active", Json.bool d.teleop_active),
     ("servo_positions", encOpt (fun xs => Json.arr (xs.map encInt)) d.servo_positions),
     ("realsense_connected", encOpt Json.bool d.realsense_connected),
     ("process_count", encNat d.process_count),
     ("boot_id", Json.str d.boot_id)]

def DynamicInfo.fromJson : Json → Option DynamicInfo
  | Json.obj fields => do
    let timestamp ← getField fields "timestamp" >>= decStr
    let uptime_seconds ← getField fields "uptime_seconds" >>= decNat
    let cpu_usage_percent ← getField fields "cpu_usage_percent" >>= decRat
    let memory_used_mb ← getField fields "memory_used_mb" >>= decNat
    let memory_free_mb ← getField fields "memory_free_mb" >>= decNat
    let disk_used_gb ← getField fields "disk_used_gb" >>= decRat
    let disk_free_gb ← getField fields "disk_free_gb" >>= decRat
    let temperature_celsius ← getField fields "temperature_celsius" >>= decOpt decRat
    let network_rx_bytes ← getField fields "network_rx_bytes" >>= decNat
    let network_tx_bytes ← getField fields "network_tx_bytes" >>= decNat
    let video_active ← getField fields "video_active" >>= decBool
    let teleop_active ← getField fields "teleop_active" >>= decBool
    let servo_positions ← getField fields "servo_positions" >>= decOpt (decList decInt)
    let realsense_connected ← getField fields "realsense_connected" >>= decOpt decBool
    let process_count ← getField fields "process_count" >>= decNat
    let boot_id ← getField fields "boot_id" >>= decStr
    pure { timestamp := timestamp, uptime_seconds := uptime_seconds,
           cpu_usage_percent := cpu_usage_percent, memory_used_mb := memory_used_mb,
           memory_free_mb := memory_free_mb, disk_used_gb := disk_used_gb,
           disk_free_gb := disk_free_gb, temperature_celsius := temperature_celsius,
           network_rx_bytes := network_rx_bytes, network_tx_bytes := network_tx_bytes,
           video_active := video_active, teleop_active := teleop_active,
           servo_positions := servo_positions, realsense_connected := realsense_connected,
           process_count := process_count, boot_id := boot_id }
  | _ => none

@[simp] lemma dynamicInfo_json_roundtrip (d : DynamicInfo) :
    DynamicInfo.fromJson (DynamicInfo.toJson d) = some d := by
  rcases d with ⟨f1, f2, f3, f4, f5, f6, f7, f8, f9, f10, f11, f12, f13, f14, f15, f16⟩
  cases f8 <;> cases f13 <;> cases f14 <;>
    simp [DynamicInfo.toJson, DynamicInfo.fromJson, getField, Option.bind, encOpt, decOpt]

/-- Derived serialization of `RobotState`. -/
def RobotState.toJson (s : RobotState) : Json :=
  Json.obj
    [("system_info", SystemInfo.toJson s.system_info),
     ("dynamic_info", DynamicInfo.toJson s.dynamic_info),
     ("first_seen", Json.str s.first_seen),
     ("last_boot", Json.str s.last_boot),
     ("boot_count", encNat s.boot_count)]

def RobotState.fromJson : Json → Option RobotState
  | Json.obj fields => do
    let system_info ← getField fields "system_info" >>= SystemInfo.fromJson
    let dynamic_info ← getField fields "dynamic_info" >>= DynamicInfo.fromJson
    let first_seen ← getField fields "first_seen" >>= decStr
    let last_boot ← getField fields "last_boot" >>= decStr
    let boot_count ← getField fields "boot_count" >>= decNat
    pure { system_info := system_info, dynamic_info := dynamic_info,
           first_seen := first_seen, last_boot := last_boot, boot_count := boot_count }
  | _ => none

/-- C6: encoding a `RobotState` to the wire format and decoding it back
reproduces the record identically, absent optional fields included. -/
theorem robotState_json_roundtrip (s : RobotState) :
    RobotState.fromJson (RobotState.toJson s) = some s := by
  rcases s with ⟨si, di, fs, lb, bc⟩
  simp [RobotState.toJson, RobotState.fromJson, getField, Option.bind]
